import Mathlib

set_option maxHeartbeats 1000000

/-!
Verification of the structural comparator in `src/ledona/deep_compare.py`.

The Python module is shallowly embedded below.  Python values that the
comparator dispatches on are modelled by the inductive type `Val`
(tabular frame / object with a field dictionary / named tuple / dict /
list / tuple / scalars).  Raised exceptions are modelled by `Except Err`;
the process-wide `__debug__` flag is an explicit `debug : Bool` parameter,
and a Python `assert cond, m` statement is `pyAssert debug cond m` (a
no-op when `debug` is false, exactly like `python -O`).

The pandas DataFrame collaborator is modelled as a labelled table with an
optional (single or multi-part) row index; its sorting / column-selection /
equality primitives are modelled as total deterministic table operations
(cells carry only integers and strings, which are totally ordered).
-/

/-- Python exceptions raised by the comparator. -/
inductive Err where
  | assertionError : String → Err
  | valueError : String → Err
  | typeError : String → Err
  | nameError : String → Err
  deriving DecidableEq, Repr

/-- The message of the `ValueError` guard raised by every entry point when
strict mode is requested while assertions are disabled (source lines 12-13,
73-74, 152-153, 180-181, 218-219). -/
def guardMsg : String := "assert_tests cannot be true in optimized/non debug mode"

/-- A single cell of a tabular frame. -/
inductive Cell where
  | int : Int → Cell
  | str : String → Cell
  deriving DecidableEq, Repr

/-- The index names of a frame: a plain index with an optional name, or a
multi-part (MultiIndex) index with one optional name per level. -/
inductive IndexNames where
  | plain : Option String → IndexNames
  | multi : List (Option String) → IndexNames
  deriving DecidableEq, Repr

/-- A row: its index value(s) followed by one cell per column. -/
structure Row where
  idx : List Cell
  cells : List Cell
  deriving DecidableEq, Repr

/-- A tabular frame: index names, ordered column names, and rows. -/
structure DataFrame where
  idxNames : IndexNames
  cols : List String
  rows : List Row
  deriving DecidableEq, Repr

/-- Insert into a list sorted by `le`. -/
def insertSorted (le : α → α → Bool) (a : α) : List α → List α
  | [] => [a]
  | b :: rest => if le a b then a :: b :: rest else b :: insertSorted le a rest

/-- Insertion sort by `le` (models Python `sorted` / pandas `sort_values`). -/
def sortByLe (le : α → α → Bool) : List α → List α
  | [] => []
  | a :: rest => insertSorted le a (sortByLe le rest)

/-- Python `sorted` on a list of strings. -/
def sortedStrings (l : List String) : List String :=
  sortByLe (fun a b => decide (a ≤ b)) l

/-- Total order on cells (integers sort before strings). -/
def cellLe : Cell → Cell → Bool
  | Cell.int a, Cell.int b => decide (a ≤ b)
  | Cell.int _, Cell.str _ => true
  | Cell.str _, Cell.int _ => false
  | Cell.str a, Cell.str b => decide (a ≤ b)

/-- Lexicographic order on cell tuples. -/
def cellListLe : List Cell → List Cell → Bool
  | [], _ => true
  | _ :: _, [] => false
  | a :: as, b :: bs => if a = b then cellListLe as bs else cellLe a b

/-- Value of column `c` in row `r` of `df` (used for selection and sort keys). -/
def DataFrame.cellOf (df : DataFrame) (r : Row) (c : String) : Cell :=
  match df.cols.findIdx? (fun x => x = c) with
  | some i => r.cells.getD i (Cell.int 0)
  | Option.none => Cell.int 0

/-- `df[cs]`: select (and reorder) the named columns. -/
def DataFrame.selectCols (df : DataFrame) (cs : List String) : DataFrame :=
  { df with cols := cs,
            rows := df.rows.map fun r => { r with cells := cs.map fun c => df.cellOf r c } }

/-- Sort-key component named `n` of row `r`: an index level if `n` names one,
otherwise the column `n`. -/
def DataFrame.keyCell (df : DataFrame) (r : Row) (n : String) : Cell :=
  match df.idxNames with
  | IndexNames.plain nm =>
    if nm = some n then r.idx.getD 0 (Cell.int 0) else df.cellOf r n
  | IndexNames.multi names =>
    match names.findIdx? (fun x => x = some n) with
    | some i => r.idx.getD i (Cell.int 0)
    | Option.none => df.cellOf r n

/-- `df.sort_values(by=bys)`: sort the rows by the named key columns/levels. -/
def DataFrame.sortValues (df : DataFrame) (bys : List String) : DataFrame :=
  let le := fun r1 r2 => cellListLe (bys.map (df.keyCell r1)) (bys.map (df.keyCell r2))
  { df with rows := sortByLe le df.rows }

/-- `df.reset_index(drop=True)`: replace the index by an unnamed range index. -/
def DataFrame.resetIndexDrop (df : DataFrame) : DataFrame :=
  { df with idxNames := IndexNames.plain Option.none,
            rows := ((List.range df.rows.length).zip df.rows).map
              fun p => { p.2 with idx := [Cell.int (p.1 : Int)] } }

/-- `df.index.name = n` for a plain index (source lines 123-124). -/
def DataFrame.setIndexName (df : DataFrame) (n : String) : DataFrame :=
  { df with idxNames := IndexNames.plain (some n) }

/-- `isinstance(df.index, pd.MultiIndex)`. -/
def DataFrame.isMultiIndex (df : DataFrame) : Bool :=
  match df.idxNames with
  | IndexNames.multi _ => true
  | IndexNames.plain _ => false

/-- Index names agree (source lines 110-113; kinds are checked separately). -/
def indexNamesMatch (d1 d2 : DataFrame) : Bool :=
  match d1.idxNames, d2.idxNames with
  | IndexNames.multi n1, IndexNames.multi n2 => decide (n1 = n2)
  | IndexNames.plain n1, IndexNames.plain n2 => decide (n1 = n2)
  | _, _ => false

/-- `pd.testing.assert_frame_equal` as a boolean: columns, rows (with index
values) and — since `check_names` is always true here — index names must all
agree. -/
def framesEqual (checkNames : Bool) (d1 d2 : DataFrame) : Bool :=
  decide (d1.cols = d2.cols) && decide (d1.rows = d2.rows) &&
    (!checkNames || decide (d1.idxNames = d2.idxNames))

/-- Python values the comparator dispatches on (source lines 15-35):
a DataFrame, an object exposing `__dict__` (and not an `Enum`), a named
tuple exposing `_fields`, a dict, a list, a tuple, or a scalar. -/
inductive Val where
  | df : DataFrame → Val
  | obj : List (String × Val) → Val
  | ntuple : List (String × Val) → Val
  | dict : List (String × Val) → Val
  | list : List Val → Val
  | tuple : List Val → Val
  | int : Int → Val
  | str : String → Val
  | bool : Bool → Val
  | enum : String → Val
  | none : Val

/-- Association-list lookup for object attributes / dict entries. -/
def lookupField : List (String × Val) → String → Option Val
  | [], _ => Option.none
  | (k, v) :: rest, key => if k = key then some v else lookupField rest key

/-- `getattr(v, a)` for attribute-bearing values. -/
def getattrVal : Val → String → Option Val
  | Val.obj f, a => lookupField f a
  | Val.ntuple f, a => lookupField f a
  | _, _ => Option.none

/-- The attribute/key names of a field list, in order. -/
def fieldNames (f : List (String × Val)) : List String := f.map Prod.fst

/-- `isinstance(v, dict)`. -/
def isDictVal : Val → Bool
  | Val.dict _ => true
  | _ => false

/-- Python `assert cond, m`: inert when `debug` is false. -/
def pyAssert (debug : Bool) (cond : Bool) (m : String) : Except Err Unit :=
  if debug && !cond then Except.error (Err.assertionError m) else Except.ok ()

/-- The `try: ... except AssertionError: if assert_tests: raise / return False`
pattern shared by the comparator functions; a fully successful body yields
`True`. -/
def tryAssert (assertTests : Bool) (body : Except Err Unit) : Except Err Bool :=
  match body with
  | Except.ok _ => Except.ok true
  | Except.error (Err.assertionError m) =>
    if assertTests then Except.error (Err.assertionError m) else Except.ok false
  | Except.error e => Except.error e

/-- Formatting of `None` / a string for f-string interpolation of an optional
message. -/
def pyStrOfOpt : Option String → String
  | Option.none => "None"
  | some s => s

/-- Python `msg or ""` on an optional message (source lines 18, 25, 29, 32). -/
def msgOrEmpty : Option String → String
  | Option.none => ""
  | some s => s

/-- Helper for Python `set(...)`: deduplicate, keeping first occurrences. -/
def dedupAux (seen : List String) : List String → List String
  | [] => []
  | k :: rest => if k ∈ seen then dedupAux seen rest else k :: dedupAux (k :: seen) rest

/-- Python `set(l)` modelled as a duplicate-free list in first-occurrence order. -/
def pySet (l : List String) : List String := dedupAux [] l

/-- Python set inclusion `l1 <= l2`. -/
def setSubB (l1 l2 : List String) : Bool := l1.all (fun k => decide (k ∈ l2))

/-- Python set difference `l1 - l2` (as a list). -/
def setDiffL (l1 l2 : List String) : List String := l1.filter (fun k => decide (k ∉ l2))

/-- Python set equality. -/
def setEqB (l1 l2 : List String) : Bool := setSubB l1 l2 && setSubB l2 l1

/-- Python `repr` of a set of strings, e.g. `set()` or `{'z'}`. -/
def fmtStrSet (l : List String) : String :=
  if l = [] then "set()"
  else "\x7b" ++ String.intercalate ", " (l.map (fun k => "\x27" ++ k ++ "\x27")) ++ "\x7d"

mutual

/-- Python `repr` of a value (used by f-string interpolation in messages). -/
def reprVal : Val → String
  | Val.int i => toString i
  | Val.str s => "\x27" ++ s ++ "\x27"
  | Val.bool b => if b then "True" else "False"
  | Val.none => "None"
  | Val.enum s => s
  | Val.list l => "[" ++ reprValList l ++ "]"
  | Val.tuple l => "(" ++ reprValList l ++ ")"
  | Val.dict f => "\x7b" ++ reprFields f ++ "\x7d"
  | Val.obj f => "<obj " ++ reprFields f ++ ">"
  | Val.ntuple f => "(" ++ reprFields f ++ ")"
  | Val.df _ => "<DataFrame>"

/-- Comma-separated reprs of list elements. -/
def reprValList : List Val → String
  | [] => ""
  | [x] => reprVal x
  | x :: rest => reprVal x ++ ", " ++ reprValList rest

/-- Comma-separated `key: value` reprs of a field list. -/
def reprFields : List (String × Val) → String
  | [] => ""
  | [(k, v)] => "\x27" ++ k ++ "\x27: " ++ reprVal v
  | (k, v) :: rest => "\x27" ++ k ++ "\x27: " ++ reprVal v ++ ", " ++ reprFields rest

end

/-- Python `==` as evaluated by the comparator's scalar fallback (source line
35); `first` is always a scalar-like value there, so composite/composite
cases never arise and are mapped to `False` like any cross-type comparison.
`bool` participates in integer equality as in Python. -/
def pyEq : Val → Val → Bool
  | Val.int a, Val.int b => a == b
  | Val.str a, Val.str b => a == b
  | Val.bool a, Val.bool b => a == b
  | Val.int a, Val.bool b => a == (if b then (1 : Int) else 0)
  | Val.bool a, Val.int b => (if a then (1 : Int) else 0) == b
  | Val.none, Val.none => true
  | Val.enum a, Val.enum b => a == b
  | _, _ => false

/-- The `except AssertionError as ex: if assert_tests: assert False, ex;
return False` tail of `compare_dataframes` (source lines 139-142); note the
re-raise is itself an `assert`, hence inert when `debug` is false. -/
def dfFail (debug assertTests : Bool) (m : String) : Except Err Bool :=
  if assertTests then
    (if debug then Except.error (Err.assertionError m) else Except.ok false)
  else Except.ok false

/-- Source lines 106-138 of `compare_dataframes`: index checks, row-order
normalisation (with the in-place `df1.index.name = "INDEX"` rename of source
lines 122-124, which mutates the caller's frames exactly when the locals still
alias them), index reset, and the final `assert_frame_equal`.  Returns the
outcome together with the caller-visible final operands. -/
def compareDataframesFinish (debug : Bool) (caller1 caller2 : Val) (d1 d2 : DataFrame)
    (aliased : Bool) (objFinal : Option String)
    (ignoreRowOrder ignoreIndex assertTests : Bool) : Except Err Bool × Val × Val :=
  -- with assertions disabled the walrus on line 107 never runs, so line 110
  -- raises NameError for `multi_index`
  if ¬ignoreIndex ∧ ¬debug then
    (Except.error (Err.nameError "name \x27multi_index\x27 is not defined"), caller1, caller2)
  else if ¬ignoreIndex ∧ d1.isMultiIndex ≠ d2.isMultiIndex then
    (dfFail debug assertTests "", caller1, caller2)
  else if ¬ignoreIndex ∧ ¬ indexNamesMatch d1 d2 then
    (dfFail debug assertTests "", caller1, caller2)
  else
    let step : DataFrame × DataFrame × Val × Val :=
      if ignoreRowOrder then
        let sortBy0 := sortedStrings d1.cols
        if ¬ignoreIndex then
          match d1.idxNames with
          | IndexNames.multi names =>
            let sb := (names.map pyStrOfOpt) ++ sortBy0
            (d1.sortValues sb, d2.sortValues sb, caller1, caller2)
          | IndexNames.plain (some n) =>
            let sb := n :: sortBy0
            (d1.sortValues sb, d2.sortValues sb, caller1, caller2)
          | IndexNames.plain Option.none =>
            -- source lines 122-124: in-place rename, visible to the caller
            -- when the locals still alias the caller's frames
            let d1r := d1.setIndexName "INDEX"
            let d2r := d2.setIndexName "INDEX"
            let sb := "INDEX" :: sortBy0
            (d1r.sortValues sb, d2r.sortValues sb,
             if aliased then Val.df d1r else caller1,
             if aliased then Val.df d2r else caller2)
        else
          (d1.sortValues sortBy0, d2.sortValues sortBy0, caller1, caller2)
      else (d1, d2, caller1, caller2)
    let d1f := if ignoreIndex then step.1.resetIndexDrop else step.1
    let d2f := if ignoreIndex then step.2.1.resetIndexDrop else step.2.1
    if framesEqual true d1f d2f then (Except.ok true, step.2.2.1, step.2.2.2)
    else
      (dfFail debug assertTests
        ((match objFinal with | some o => o | Option.none => "DataFrame") ++ " are different"),
       step.2.2.1, step.2.2.2)

/-- `compare_dataframes` (source lines 44-144).  `objKwarg` models an `obj`
entry of `**assert_frame_equal_kwargs`; `check_names` is always defaulted to
true (lines 134-135).  Returns the outcome together with the caller-visible
final operands (to make the in-place index rename observable). -/
def compareDataframes (debug : Bool) (v1 v2 : Val) (cols : Option (List String))
    (msg : Option String) (ignoreColOrder ignoreRowOrder ignoreIndex assertTests : Bool)
    (objKwarg : Option String) : Except Err Bool × Val × Val :=
  -- line 71-72
  if msg.isSome ∧ objKwarg.isSome then
    (Except.error (Err.valueError "\x27msg\x27 and \x27obj\x27 keyword args cannot be used together"),
     v1, v2)
  -- line 73-74
  else if ¬debug ∧ assertTests then
    (Except.error (Err.valueError guardMsg), v1, v2)
  else
    match v1, v2 with
    | Val.df d1, Val.df d2 =>
      -- lines 136-137
      let objFinal : Option String :=
        match msg with
        | some m => some (m ++ " dataframes")
        | Option.none => objKwarg
      match cols with
      | some cs =>
        -- lines 79-91
        if ¬ignoreColOrder then
          (Except.error (Err.valueError "Cannot specify cols and test col order"), v1, v2)
        else
          let colsSet := pySet cs
          let missing1 := setDiffL colsSet d1.cols
          if missing1 ≠ [] then
            (if debug then
              dfFail debug assertTests
                ("Not all the requested cols are in df1. missing_cols=" ++ fmtStrSet missing1)
             else Except.error (Err.typeError "KeyError"), v1, v2)
          else
            let missing2 := setDiffL colsSet d2.cols
            if missing2 ≠ [] then
              (if debug then
                dfFail debug assertTests
                  ("Not all the requested cols are in df2. missing_cols=" ++ fmtStrSet missing2)
               else Except.error (Err.typeError "KeyError"), v1, v2)
            else
              compareDataframesFinish debug v1 v2 (d1.selectCols cs) (d2.selectCols cs)
                false objFinal ignoreRowOrder ignoreIndex assertTests
      | Option.none =>
        if ¬ignoreColOrder then
          -- lines 92-95; the message is a plain (non-f) string in the source
          if debug ∧ d1.cols ≠ d2.cols then
            (dfFail debug assertTests
              "The order of the columns does not match. \x7bdf1.columns=\x7d \x7bdf2.columns=\x7d",
             v1, v2)
          else
            compareDataframesFinish debug v1 v2 d1 d2 true objFinal
              ignoreRowOrder ignoreIndex assertTests
        else
          -- lines 96-104
          if debug ∧ ¬ setEqB (pySet d1.cols) (pySet d2.cols) then
            (dfFail debug assertTests
              ("column names don\x27t match. " ++
               fmtStrSet (setDiffL (pySet d1.cols) (pySet d2.cols)) ++
               " in df1 and not in df2. " ++
               fmtStrSet (setDiffL (pySet d2.cols) (pySet d1.cols)) ++
               " in df2 and not in df1"),
             v1, v2)
          else
            compareDataframesFinish debug v1 v2
              (d1.selectCols (sortedStrings d1.cols)) (d2.selectCols (sortedStrings d2.cols))
              false objFinal ignoreRowOrder ignoreIndex assertTests
    | _, _ =>
      -- lines 76-77: `assert isinstance(..., pd.DataFrame)` inside the try
      if debug then (dfFail debug assertTests "", v1, v2)
      else (Except.error (Err.typeError "not a DataFrame"), v1, v2)

/-- One line of the aggregated mismatch report (source line 270). -/
def fmtMismatch (p : String × Val × Val) : String :=
  "  " ++ p.1 ++ ": dict1=" ++ reprVal p.2.1 ++ ", dict2=" ++ reprVal p.2.2

/-- A successful association-list lookup returns a structurally smaller value. -/
theorem lookupField_sizeOf {f : List (String × Val)} {k : String} {v : Val}
    (h : lookupField f k = some v) : sizeOf v < sizeOf f := by
  induction f with
  | nil => simp [lookupField] at h
  | cons p rest ih =>
    obtain ⟨a, b⟩ := p
    simp only [lookupField] at h
    split at h
    · injection h with h1
      subst h1
      simp only [List.cons.sizeOf_spec, Prod.mk.sizeOf_spec]
      omega
    · have hlt := ih h
      simp only [List.cons.sizeOf_spec, Prod.mk.sizeOf_spec]
      omega

/-- A present attribute is structurally smaller than its carrier. -/
theorem getattrVal_sizeOf {o : Val} {a : String} {v : Val}
    (h : getattrVal o a = some v) : sizeOf v < sizeOf o := by
  cases o <;> simp [getattrVal] at h
  case obj f =>
    have := lookupField_sizeOf h
    simp only [Val.obj.sizeOf_spec]
    omega
  case ntuple f =>
    have := lookupField_sizeOf h
    simp only [Val.ntuple.sizeOf_spec]
    omega

mutual

/-- `deep_compare` (source lines 7-41): strict-mode guard, then shape
dispatch on `first`. -/
def deepCompare (debug : Bool) (first second : Val) (msg : Option String)
    (assertTests : Bool) : Except Err Bool :=
  -- lines 12-13
  if ¬debug ∧ assertTests then Except.error (Err.valueError guardMsg)
  else
    match first with
    -- lines 15-16
    | Val.df _ =>
      (compareDataframes debug first second Option.none msg false true false assertTests
        Option.none).1
    -- lines 17-18
    | Val.obj f =>
      deepCompareObjs debug (Val.obj f) second Option.none (msgOrEmpty msg) assertTests
    -- lines 19-27: named tuples carry their field names explicitly
    | Val.ntuple f =>
      deepCompareObjs debug (Val.ntuple f) second (some (fieldNames f)) (msgOrEmpty msg)
        assertTests
    -- lines 28-29
    | Val.dict f =>
      deepCompareDicts debug (Val.dict f) second (msgOrEmpty msg) assertTests
        Option.none false Option.none
    -- lines 31-32 and 41: the boolean result of the delegate is discarded and
    -- the function falls through to `return True`; raised errors propagate
    | Val.list l1 =>
      match second with
      | Val.list l2 =>
        match deepCompareOrderedCollections debug l1 l2 (msgOrEmpty msg) assertTests with
        | Except.ok _ => Except.ok true
        | Except.error e => Except.error e
      | Val.tuple l2 =>
        match deepCompareOrderedCollections debug l1 l2 (msgOrEmpty msg) assertTests with
        | Except.ok _ => Except.ok true
        | Except.error e => Except.error e
      | _ => Except.error (Err.typeError "object has no len()")
    | Val.tuple l1 =>
      match second with
      | Val.list l2 =>
        match deepCompareOrderedCollections debug l1 l2 (msgOrEmpty msg) assertTests with
        | Except.ok _ => Except.ok true
        | Except.error e => Except.error e
      | Val.tuple l2 =>
        match deepCompareOrderedCollections debug l1 l2 (msgOrEmpty msg) assertTests with
        | Except.ok _ => Except.ok true
        | Except.error e => Except.error e
      | _ => Except.error (Err.typeError "object has no len()")
    -- lines 33-39: scalar fallback
    | _ =>
      match pyAssert debug (pyEq first second)
          (pyStrOfOpt msg ++ " :: first=" ++ reprVal first ++ " != second=" ++
           reprVal second) with
      | Except.ok _ => Except.ok true
      | Except.error e => if assertTests then Except.error e else Except.ok false
termination_by (sizeOf first, 4, 0)
decreasing_by
  all_goals simp_wf
  all_goals first
    | (apply Prod.Lex.right; apply Prod.Lex.left; omega)
    | (apply Prod.Lex.left; simp_arith)

/-- `deep_compare_objs` (source lines 147-175). -/
def deepCompareObjs (debug : Bool) (obj1 obj2 : Val) (attrNames : Option (List String))
    (msg : String) (assertTests : Bool) : Except Err Bool :=
  -- lines 152-153
  if ¬debug ∧ assertTests then Except.error (Err.valueError guardMsg)
  else
    match attrNames with
    | some l => tryAssert assertTests (objsLoop debug obj1 obj2 l msg)
    | Option.none =>
      -- lines 155-156: the default attribute list is `vars(obj1)`
      match obj1 with
      | Val.obj f => tryAssert assertTests (objsLoop debug (Val.obj f) obj2 (fieldNames f) msg)
      -- `vars` on a value without `__dict__` raises TypeError
      | _ => Except.error (Err.typeError "vars() argument must have __dict__ attribute")
termination_by (sizeOf obj1, 2, 0)
decreasing_by
  all_goals simp_wf
  all_goals (apply Prod.Lex.right; apply Prod.Lex.left; omega)

/-- The attribute loop of `deep_compare_objs` (source lines 159-168); the
recursive `deep_compare` is invoked with `assert_tests=True`. -/
def objsLoop (debug : Bool) (obj1 obj2 : Val) (attrs : List String) (msg : String) :
    Except Err Unit :=
  match attrs with
  | [] => Except.ok ()
  | a :: rest =>
    match pyAssert debug (getattrVal obj1 a).isSome
        (msg ++ ": obj1 does not have attribute \x27" ++ a ++ "\x27") with
    | Except.error e => Except.error e
    | Except.ok _ =>
      match pyAssert debug (getattrVal obj2 a).isSome
          (msg ++ ": obj2 does not have attribute \x27" ++ a ++ "\x27") with
      | Except.error e => Except.error e
      | Except.ok _ =>
        match h1 : getattrVal obj1 a with
        | Option.none => Except.error (Err.typeError "AttributeError")
        | some w1 =>
          match getattrVal obj2 a with
          | Option.none => Except.error (Err.typeError "AttributeError")
          | some w2 =>
            match deepCompare debug w1 w2
                (some (msg ++ " >> obj1." ++ a ++ " != obj2." ++ a)) true with
            | Except.error e => Except.error e
            | Except.ok _ => objsLoop debug obj1 obj2 rest msg
termination_by (sizeOf obj1, 1, attrs.length)
decreasing_by
  all_goals simp_wf
  all_goals first
    | (apply Prod.Lex.left; have := getattrVal_sizeOf h1; omega)
    | (apply Prod.Lex.right; apply Prod.Lex.right; omega)

/-- `deep_compare_ordered_collections` (source lines 178-195). -/
def deepCompareOrderedCollections (debug : Bool) (objs1 objs2 : List Val) (msg : String)
    (assertTests : Bool) : Except Err Bool :=
  -- lines 180-181
  if ¬debug ∧ assertTests then Except.error (Err.valueError guardMsg)
  else
    -- lines 183-189: length check first, then the pairwise loop
    tryAssert assertTests
      (match pyAssert debug (objs1.length == objs2.length)
          (msg ++ ": lengths do not match. objs1 has length " ++ toString objs1.length ++
           ", objs2 has length " ++ toString objs2.length) with
       | Except.error e => Except.error e
       | Except.ok _ => seqLoop debug msg 0 objs1 objs2)
termination_by (sizeOf objs1, 2, 0)
decreasing_by
  all_goals simp_wf
  all_goals (apply Prod.Lex.right; apply Prod.Lex.left; omega)

/-- The element loop of `deep_compare_ordered_collections` (source lines
188-189, a `zip` with `enumerate`); the recursive `deep_compare` uses its
default `assert_tests=True`. -/
def seqLoop (debug : Bool) (msg : String) (i : Nat) (l1 l2 : List Val) : Except Err Unit :=
  match l1, l2 with
  | x :: xs, y :: ys =>
    match deepCompare debug x y
        (some (msg ++ ": items " ++ toString i ++ " don\x27t match")) true with
    | Except.error e => Except.error e
    | Except.ok _ => seqLoop debug msg (i + 1) xs ys
  | _, _ => Except.ok ()
termination_by (sizeOf l1, 1, 0)
decreasing_by
  all_goals simp_wf
  all_goals (apply Prod.Lex.left; simp_arith)

/-- `deep_compare_dicts` (source lines 198-280): the strict-mode guard of
lines 218-219, then the body. -/
def deepCompareDicts (debug : Bool) (dict1 dict2 : Val) (msg : String) (assertTests : Bool)
    (keyNames : Option (List String)) (minimalKeyTest : Bool)
    (ignoreKeys : Option (List String)) : Except Err Bool :=
  -- lines 218-219
  if ¬debug ∧ assertTests then Except.error (Err.valueError guardMsg)
  else deepCompareDictsBody debug dict1 dict2 msg assertTests keyNames minimalKeyTest ignoreKeys
termination_by (sizeOf dict1, 3, 0)
decreasing_by
  all_goals simp_wf
  all_goals (apply Prod.Lex.right; apply Prod.Lex.left; omega)

/-- Lines 221-280 of `deep_compare_dicts`: the `isinstance` assertions
(outside the try block, so never downgraded to `False`), key-policy
selection, and the collect-then-aggregate comparison. -/
def deepCompareDictsBody (debug : Bool) (dict1 dict2 : Val) (msg : String)
    (assertTests : Bool) (keyNames : Option (List String)) (minimalKeyTest : Bool)
    (ignoreKeys : Option (List String)) : Except Err Bool :=
    -- lines 221-222
    match pyAssert debug (isDictVal dict1) "dict1 should be a dict" with
    | Except.error e => Except.error e
    | Except.ok _ =>
      match pyAssert debug (isDictVal dict2) "dict2 should be a dict" with
      | Except.error e => Except.error e
      | Except.ok _ =>
        match dict1, dict2 with
        | Val.dict d1, Val.dict d2 =>
          -- lines 224-225 (the default msg is the string "", never None here)
          let m := msg ++ " :: "
          tryAssert assertTests
            (if minimalKeyTest then
              -- lines 228-241
              if ignoreKeys.isSome then
                Except.error (Err.valueError "ignore_keys cannot be used with minimal_key_test")
              else
                let keySet := keyNames.elim (fieldNames d1) (fun l => pySet l)
                match pyAssert debug (setSubB keySet (fieldNames d1))
                    (m ++ ": dict1 does not have keys " ++
                     fmtStrSet (setDiffL keySet (fieldNames d1))) with
                | Except.error e => Except.error e
                | Except.ok _ =>
                  match pyAssert debug (setSubB keySet (fieldNames d2))
                      (m ++ ": dict2 does not have keys " ++
                       fmtStrSet (setDiffL keySet (fieldNames d2))) with
                  | Except.error e => Except.error e
                  | Except.ok _ => dictCompareKeys debug d1 d2 m keySet
            else if keyNames.isSome then
              -- lines 242-243
              Except.error (Err.valueError "If minimal_key_test is False key_names must be None")
            else
              -- lines 244-255; `if ignore_keys:` is a truthiness test
              let igl := ignoreKeys.getD []
              let k1 := if igl ≠ [] then
                  (pySet (fieldNames d1)).filter (fun k => decide (k ∉ igl))
                else pySet (fieldNames d1)
              let k2 := if igl ≠ [] then
                  (pySet (fieldNames d2)).filter (fun k => decide (k ∉ igl))
                else pySet (fieldNames d2)
              match pyAssert debug (setEqB k1 k2)
                  (m ++ ": dict keys don\x27t match. Keys in dict1 and missing from dict2 = " ++
                   fmtStrSet (setDiffL k1 k2) ++ ". Keys in dict2 and missing from dict1 = " ++
                   fmtStrSet (setDiffL k2 k1)) with
              | Except.error e => Except.error e
              | Except.ok _ => dictCompareKeys debug d1 d2 m k1)
        | _, _ =>
          -- `.keys()` on a non-dict (only reachable with debug off)
          Except.error (Err.typeError "AttributeError: keys")
termination_by (sizeOf dict1, 2, 0)
decreasing_by
  all_goals simp_wf
  all_goals (apply Prod.Lex.left; simp_arith)

/-- Lines 257-274 of `deep_compare_dicts`: run the key loop, then raise the
single aggregated error if any mismatches were collected. -/
def dictCompareKeys (debug : Bool) (d1 d2 : List (String × Val)) (m : String)
    (keySet : List String) : Except Err Unit :=
  match dictLoop debug d1 d2 m keySet with
  | Except.error e => Except.error e
  | Except.ok mismatches =>
    if mismatches.isEmpty then Except.ok ()
    else
      Except.error (Err.assertionError
        (m ++ toString mismatches.length ++ " key(s) with mismatched values:\n" ++
         String.intercalate "\n" (mismatches.map fmtMismatch)))
termination_by (sizeOf d1, 2, 0)
decreasing_by
  all_goals simp_wf
  all_goals (apply Prod.Lex.right; apply Prod.Lex.left; omega)

/-- The key loop of `deep_compare_dicts` (source lines 257-266): values are
compared with `assert_tests=False` and unequal pairs are collected in order. -/
def dictLoop (debug : Bool) (d1 d2 : List (String × Val)) (m : String)
    (keys : List String) : Except Err (List (String × Val × Val)) :=
  match keys with
  | [] => Except.ok []
  | k :: rest =>
    match pyAssert debug (decide (k ∈ fieldNames d1))
        (m ++ ": key_name=\x27" ++ k ++ "\x27 not in dict1") with
    | Except.error e => Except.error e
    | Except.ok _ =>
      match pyAssert debug (decide (k ∈ fieldNames d2))
          (m ++ ": key_name=\x27" ++ k ++ "\x27 not in dict2") with
      | Except.error e => Except.error e
      | Except.ok _ =>
        match h1 : lookupField d1 k with
        | Option.none => Except.error (Err.typeError "KeyError")
        | some v1 =>
          match lookupField d2 k with
          | Option.none => Except.error (Err.typeError "KeyError")
          | some v2 =>
            match deepCompare debug v1 v2 Option.none false with
            | Except.error e => Except.error e
            | Except.ok b =>
              match dictLoop debug d1 d2 m rest with
              | Except.error e => Except.error e
              | Except.ok ms =>
                Except.ok (if b then ms else (k, v1, v2) :: ms)
termination_by (sizeOf d1, 1, keys.length)
decreasing_by
  all_goals simp_wf
  all_goals first
    | (apply Prod.Lex.left; have := lookupField_sizeOf h1; omega)
    | (apply Prod.Lex.right; apply Prod.Lex.right; omega)

end

/-- A key occurring among the field names can be looked up. -/
theorem lookupField_isSome_of_mem {f : List (String × Val)} {k : String}
    (h : k ∈ fieldNames f) : (lookupField f k).isSome = true := by
  induction f with
  | nil => simp [fieldNames] at h
  | cons p rest ih =>
    obtain ⟨a, b⟩ := p
    simp only [lookupField]
    split
    · simp
    · rename_i hne
      apply ih
      simp only [fieldNames, List.map_cons, List.mem_cons] at h
      rcases h with h | h
      · exact absurd h.symm hne
      · exact h

/-- `pySet` only keeps elements of its input. -/
theorem mem_dedupAux {seen l : List String} {k : String}
    (h : k ∈ dedupAux seen l) : k ∈ l := by
  induction l generalizing seen with
  | nil => simp [dedupAux] at h
  | cons a rest ih =>
    simp only [dedupAux] at h
    split at h
    · exact List.mem_cons_of_mem _ (ih h)
    · rcases List.mem_cons.mp h with h | h
      · exact h ▸ List.mem_cons_self _ _
      · exact List.mem_cons_of_mem _ (ih h)

/-- Membership in a Python set built from a list implies list membership. -/
theorem mem_pySet {l : List String} {k : String} (h : k ∈ pySet l) : k ∈ l :=
  mem_dedupAux h

/-- A set is a subset of itself. -/
theorem setSubB_self (l : List String) : setSubB l l = true := by
  simp [setSubB]

/-- A set equals itself. -/
theorem setEqB_self (l : List String) : setEqB l l = true := by
  simp [setEqB, setSubB_self]

/-- Index names of a frame match themselves. -/
theorem indexNamesMatch_self (d : DataFrame) : indexNamesMatch d d = true := by
  unfold indexNamesMatch
  cases d.idxNames <;> simp

/-- A frame is `assert_frame_equal` to itself. -/
theorem framesEqual_self (c : Bool) (d : DataFrame) : framesEqual c d d = true := by
  simp [framesEqual]

/-- The attribute loop succeeds on identical operands whose listed attributes
are all present. -/
theorem objsLoop_self (x : Val) (attrs : List String) (msg : String)
    (hattrs : ∀ a ∈ attrs, (getattrVal x a).isSome = true)
    (ih : ∀ v : Val, sizeOf v < sizeOf x →
      ∀ (m : Option String) (t : Bool), deepCompare true v v m t = Except.ok true) :
    objsLoop true x x attrs msg = Except.ok () := by
  induction attrs with
  | nil => simp [objsLoop]
  | cons a rest ihr =>
    have h1 : (getattrVal x a).isSome = true := hattrs a (List.mem_cons_self _ _)
    obtain ⟨w, hw⟩ := Option.isSome_iff_exists.mp h1
    have hrec := ih w (getattrVal_sizeOf hw) (some (msg ++ " >> obj1." ++ a ++ " != obj2." ++ a))
      true
    simp only [objsLoop]
    simp [pyAssert, h1]
    split
    · simp_all
    · rename_i w1 hw1
      rw [hw] at hw1
      injection hw1 with hw2
      subst hw2
      simp [hw, hrec, ihr (fun b hb => hattrs b (List.mem_cons_of_mem _ hb))]

/-- The element loop succeeds when both lists are the same and every element
compares equal to itself. -/
theorem seqLoop_self (l : List Val)
    (ih : ∀ v ∈ l, ∀ (m : Option String) (t : Bool), deepCompare true v v m t = Except.ok true) :
    ∀ (i : Nat) (msg : String), seqLoop true msg i l l = Except.ok () := by
  induction l with
  | nil => intro i msg; simp [seqLoop]
  | cons x xs ihr =>
    intro i msg
    have hx := ih x (List.mem_cons_self _ _) (some (msg ++ ": items " ++ toString i ++
      " don\x27t match")) true
    simp only [seqLoop, hx]
    exact ihr (fun v hv => ih v (List.mem_cons_of_mem _ hv)) (i + 1) msg

/-- The key loop collects no mismatches on identical operands when every key
is present. -/
theorem dictLoop_self (d : List (String × Val)) (keys : List String) (m : String)
    (hkeys : ∀ k ∈ keys, k ∈ fieldNames d)
    (ih : ∀ v : Val, sizeOf v < sizeOf d →
      ∀ (mm : Option String) (t : Bool), deepCompare true v v mm t = Except.ok true) :
    dictLoop true d d m keys = Except.ok [] := by
  induction keys with
  | nil => simp [dictLoop]
  | cons k rest ihr =>
    have hk : k ∈ fieldNames d := hkeys k (List.mem_cons_self _ _)
    have h1 : (lookupField d k).isSome = true := lookupField_isSome_of_mem hk
    obtain ⟨v, hv⟩ := Option.isSome_iff_exists.mp h1
    have hrec := ih v (lookupField_sizeOf hv) Option.none false
    simp only [dictLoop]
    simp [pyAssert, hk, hv]
    split
    · simp_all
    · rename_i v1 hv1
      rw [hv] at hv1
      injection hv1 with hv2
      subst hv2
      simp [hv, hrec, ihr (fun b hb => hkeys b (List.mem_cons_of_mem _ hb))]

/-- `compare_dataframes` succeeds when both operands are the same frame, with
the default options used by `deep_compare`. -/
theorem compareDataframes_refl (d : DataFrame) (msg : Option String) (t : Bool) :
    (compareDataframes true (Val.df d) (Val.df d) Option.none msg false true false t
      Option.none).1 = Except.ok true := by
  unfold compareDataframes compareDataframesFinish
  cases h : d.idxNames with
  | plain nm => cases nm <;> simp [h, indexNamesMatch_self, framesEqual_self]
  | multi names => simp [h, indexNamesMatch_self, framesEqual_self]

/-- Reflexivity of `deep_compare` by strong induction on the size of the
operand. -/
theorem deepCompare_self_n : ∀ (n : Nat) (x : Val), sizeOf x < n →
    ∀ (msg : Option String) (t : Bool), deepCompare true x x msg t = Except.ok true := by
  intro n
  induction n with
  | zero => intro x hx msg t; omega
  | succ n ihn =>
    intro x hx msg t
    have ih : ∀ v : Val, sizeOf v < sizeOf x →
        ∀ (m : Option String) (tt : Bool), deepCompare true v v m tt = Except.ok true :=
      fun v hv => ihn v (by omega)
    cases x with
    | df d =>
      simp only [deepCompare]
      simp [compareDataframes_refl]
    | obj f =>
      have hloop := objsLoop_self (Val.obj f) (fieldNames f) (msgOrEmpty msg)
        (fun a ha => by simpa [getattrVal] using lookupField_isSome_of_mem ha) ih
      simp only [deepCompare, deepCompareObjs]
      simp [hloop, tryAssert]
    | ntuple f =>
      have hloop := objsLoop_self (Val.ntuple f) (fieldNames f) (msgOrEmpty msg)
        (fun a ha => by simpa [getattrVal] using lookupField_isSome_of_mem ha) ih
      simp only [deepCompare, deepCompareObjs]
      simp [hloop, tryAssert]
    | dict f =>
      have hsub : ∀ v : Val, sizeOf v < sizeOf f →
          ∀ (m : Option String) (tt : Bool), deepCompare true v v m tt = Except.ok true :=
        fun v hv => ih v (by simp only [Val.dict.sizeOf_spec]; omega)
      have hloop := dictLoop_self f (pySet (fieldNames f)) (msgOrEmpty msg ++ " :: ")
        (fun k hk => mem_pySet hk) hsub
      simp only [deepCompare, deepCompareDicts, deepCompareDictsBody]
      simp [isDictVal, pyAssert, setEqB_self, hloop, dictCompareKeys, tryAssert]
    | list l =>
      have hseq := seqLoop_self l
        (fun v hv => ih v (by
          have := List.sizeOf_lt_of_mem hv
          simp only [Val.list.sizeOf_spec]
          omega))
      simp only [deepCompare, deepCompareOrderedCollections]
      simp [pyAssert, tryAssert, hseq 0 (msgOrEmpty msg)]
    | tuple l =>
      have hseq := seqLoop_self l
        (fun v hv => ih v (by
          have := List.sizeOf_lt_of_mem hv
          simp only [Val.tuple.sizeOf_spec]
          omega))
      simp only [deepCompare, deepCompareOrderedCollections]
      simp [pyAssert, tryAssert, hseq 0 (msgOrEmpty msg)]
    | int i => simp [deepCompare, pyAssert, pyEq]
    | str s => simp [deepCompare, pyAssert, pyEq]
    | bool b => simp [deepCompare, pyAssert, pyEq]
    | enum s => simp [deepCompare, pyAssert, pyEq]
    | none => simp [deepCompare, pyAssert, pyEq]

/-- Reflexivity of `deep_compare` (assertions enabled): comparing any value
with itself returns `True` and raises nothing, for every message and either
strictness mode. -/
theorem deepCompare_self (x : Val) (msg : Option String) (t : Bool) :
    deepCompare true x x msg t = Except.ok true :=
  deepCompare_self_n (sizeOf x + 1) x (by omega) msg t

/-- C5: Reflexivity — for every supported value shape (tabular frame,
object-like value, named tuple, mapping, ordered sequence, scalar),
`deep_compare(x, x)` with assertions enabled returns `True` and raises no
error, for any path label and either strictness mode. -/
theorem c5_deep_compare_reflexive (x : Val) (msg : Option String) (t : Bool) :
    deepCompare true x x msg t = Except.ok true :=
  deepCompare_self x msg t

/-- C3: Requesting strict mode (`assert_tests=True`) while runtime assertions
are disabled (`__debug__` false) makes every comparator entry point raise a
configuration `ValueError` immediately, for all operands and options,
regardless of whether the operands are equal. -/
theorem c3_strict_without_assertions_raises (first second d1 d2 o1 o2 : Val)
    (l1 l2 : List Val) (msgO : Option String) (msgS : String)
    (an kn ik cols : Option (List String)) (mk ico iro ii : Bool)
    (objK : Option String) :
    deepCompare false first second msgO true = Except.error (Err.valueError guardMsg) ∧
    deepCompareObjs false o1 o2 an msgS true = Except.error (Err.valueError guardMsg) ∧
    deepCompareOrderedCollections false l1 l2 msgS true =
      Except.error (Err.valueError guardMsg) ∧
    deepCompareDicts false d1 d2 msgS true kn mk ik = Except.error (Err.valueError guardMsg) ∧
    (∃ m, (compareDataframes false first second cols msgO ico iro ii true objK).1 =
      Except.error (Err.valueError m)) := by
  refine ⟨?_, ?_, ?_, ?_, ?_⟩
  · rw [deepCompare.eq_def]
    simp
  · rw [deepCompareObjs.eq_def]
    simp
  · rw [deepCompareOrderedCollections.eq_def]
    simp
  · rw [deepCompareDicts.eq_def]
    simp
  · unfold compareDataframes
    by_cases h : msgO.isSome ∧ objK.isSome
    · refine ⟨"\x27msg\x27 and \x27obj\x27 keyword args cannot be used together", ?_⟩
      simp [h]
    · refine ⟨guardMsg, ?_⟩
      simp [h]

/-- C10: Invalid option combinations raise `ValueError` even in non-strict
mode (never downgraded to a `False` return): `ignore_keys` together with
`minimal_key_test`; `key_names` without `minimal_key_test`; a column subset
together with column-order checking; `msg` together with the `obj` keyword. -/
theorem c10_config_errors_never_downgraded (debug : Bool)
    (d1 d2 : List (String × Val)) (msgS : String) (kn : Option (List String))
    (ik : List String) (df1 df2 : DataFrame) (cs : List String) (msgO : Option String)
    (iro ii : Bool) (msg0 obj0 : String) (v1 v2 : Val) (cols : Option (List String))
    (ico iro2 ii2 at2 : Bool) :
    deepCompareDicts debug (Val.dict d1) (Val.dict d2) msgS false kn true (some ik) =
      Except.error (Err.valueError "ignore_keys cannot be used with minimal_key_test") ∧
    deepCompareDicts debug (Val.dict d1) (Val.dict d2) msgS false (some ik) false Option.none =
      Except.error (Err.valueError "If minimal_key_test is False key_names must be None") ∧
    (compareDataframes debug (Val.df df1) (Val.df df2) (some cs) msgO false iro ii false
      Option.none).1 = Except.error (Err.valueError "Cannot specify cols and test col order") ∧
    (compareDataframes debug v1 v2 cols (some msg0) ico iro2 ii2 at2 (some obj0)).1 =
      Except.error (Err.valueError
        "\x27msg\x27 and \x27obj\x27 keyword args cannot be used together") := by
  refine ⟨?_, ?_, ?_, ?_⟩
  · rw [deepCompareDicts.eq_def]
    simp [deepCompareDictsBody, pyAssert, isDictVal, tryAssert]
  · rw [deepCompareDicts.eq_def]
    simp [deepCompareDictsBody, pyAssert, isDictVal, tryAssert]
  · unfold compareDataframes
    simp
  · unfold compareDataframes
    simp

/-- C8: A length mismatch between two sequences is an immediately reported
first-class failure in both directions (regardless of the elements), and in
each direction the strict-mode message states both lengths; in non-strict
mode the comparison returns `False`. -/
theorem c8_length_mismatch_both_directions (l1 l2 : List Val) (m1 m2 : String)
    (h : l1.length ≠ l2.length) :
    deepCompareOrderedCollections true l1 l2 m1 true =
      Except.error (Err.assertionError (m1 ++ ": lengths do not match. objs1 has length " ++
        toString l1.length ++ ", objs2 has length " ++ toString l2.length)) ∧
    deepCompareOrderedCollections true l2 l1 m2 true =
      Except.error (Err.assertionError (m2 ++ ": lengths do not match. objs1 has length " ++
        toString l2.length ++ ", objs2 has length " ++ toString l1.length)) ∧
    deepCompareOrderedCollections true l1 l2 m1 false = Except.ok false := by
  have hb : (l1.length == l2.length) = false := by simpa using h
  have hb2 : (l2.length == l1.length) = false := by simpa using (Ne.symm h)
  refine ⟨?_, ?_, ?_⟩ <;>
    simp [deepCompareOrderedCollections, pyAssert, tryAssert, hb, hb2]

/-- Witness for `c8_length_mismatch_both_directions` at `[1]` versus `[]`. -/
theorem c8_length_mismatch_both_directions_witness :
    ([Val.int 1].length ≠ ([] : List Val).length) ∧
    deepCompareOrderedCollections true [Val.int 1] [] "M" true =
      Except.error (Err.assertionError
        "M: lengths do not match. objs1 has length 1, objs2 has length 0") :=
  ⟨by decide, by
    have h := (c8_length_mismatch_both_directions [Val.int 1] [] "M" "M" (by decide)).1
    simpa using h⟩

/-- Nested two-level operand for the breadcrumb claim: an object-like value
whose attribute `addr` is itself object-like with an attribute `city`. -/
def mkAddrObj (c : Int) : Val := Val.obj [("addr", Val.obj [("city", Val.int c)])]

/-- C9: When two object-like values differ at nested attribute `addr.city`,
the raised message is exactly the outer path label followed by the
`" >> "`-joined attribute breadcrumb down to the divergent leaf — in
particular it contains both `addr` and `city`. -/
theorem c9_nested_breadcrumb (outer : String) (c1 c2 : Int) (h : c1 ≠ c2) :
    deepCompareObjs true (mkAddrObj c1) (mkAddrObj c2) Option.none outer true =
      Except.error (Err.assertionError
        (outer ++ " >> obj1.addr != obj2.addr >> obj1.city != obj2.city :: first=" ++
         toString c1 ++ " != second=" ++ toString c2)) := by
  have hb : (c1 == c2) = false := by simpa using h
  simp [mkAddrObj, deepCompareObjs, objsLoop, deepCompare, getattrVal, lookupField,
    fieldNames, pyAssert, pyEq, tryAssert, msgOrEmpty, pyStrOfOpt, reprVal, hb,
    String.append_assoc]

/-- Witness for `c9_nested_breadcrumb` at city values `0` and `1`. -/
theorem c9_nested_breadcrumb_witness :
    ((0 : Int) ≠ 1) ∧
    deepCompareObjs true (mkAddrObj 0) (mkAddrObj 1) Option.none "root" true =
      Except.error (Err.assertionError
        ("root" ++ " >> obj1.addr != obj2.addr >> obj1.city != obj2.city :: first=" ++
         toString (0 : Int) ++ " != second=" ++ toString (1 : Int))) :=
  ⟨by decide, c9_nested_breadcrumb "root" 0 1 (by decide)⟩

/-- C1 (failing evaluation): because `deep_compare` discards the boolean
result of the sequence comparator (source lines 31-32) and returns `True`,
`deep_compare_dicts` fails to record a mismatch whose values are sequences:
for `{"a": [1]}` versus `{"a": [2]}` it returns `True` (even in strict mode,
raising nothing), although the code's own sequence comparator deems the two
values unequal. -/
theorem c1_dict_aggregation_misses_sequence_values :
    deepCompareDicts true (Val.dict [("a", Val.list [Val.int 1])])
      (Val.dict [("a", Val.list [Val.int 2])]) "" true Option.none false Option.none =
      Except.ok true ∧
    deepCompareDicts true (Val.dict [("a", Val.list [Val.int 1])])
      (Val.dict [("a", Val.list [Val.int 2])]) "" false Option.none false Option.none =
      Except.ok true ∧
    deepCompareOrderedCollections true [Val.int 1] [Val.int 2] "" false = Except.ok false := by
  refine ⟨?_, ?_, ?_⟩ <;>
    simp [deepCompareDicts, deepCompareDictsBody, deepCompare, deepCompareOrderedCollections,
      dictCompareKeys, dictLoop, seqLoop, pyAssert, pyEq, tryAssert, isDictVal, pySet,
      dedupAux, setEqB, setSubB, setDiffL, fieldNames, lookupField, msgOrEmpty]

/-- C2 (failing evaluation): the top-level non-strict comparison of `[1,2,3]`
versus `[1,9,3]` returns `True`, not `False`: `deep_compare` discards the
`False` returned by `deep_compare_ordered_collections` (which does detect the
index-1 mismatch) and falls through to `return True`. -/
theorem c2_nonstrict_sequence_compare_returns_true :
    deepCompare true (Val.list [Val.int 1, Val.int 2, Val.int 3])
      (Val.list [Val.int 1, Val.int 9, Val.int 3]) Option.none false = Except.ok true ∧
    deepCompareOrderedCollections true [Val.int 1, Val.int 2, Val.int 3]
      [Val.int 1, Val.int 9, Val.int 3] "" false = Except.ok false := by
  refine ⟨?_, ?_⟩ <;>
    simp [deepCompare, deepCompareOrderedCollections, seqLoop, pyAssert, pyEq, tryAssert,
      msgOrEmpty]

/-- C4: mapping key policies on `a = {"x":1,"y":2}` and
`b = {"x":1,"y":2,"z":3}`: the exact policy fails (non-strict `False`;
strict raises naming the extra key `z` in the key-set difference report),
while the subset policy (`minimal_key_test=True`, no explicit key list)
succeeds because only `a`'s keys are required. -/
theorem c4_key_policy_exact_vs_subset :
    deepCompareDicts true (Val.dict [("x", Val.int 1), ("y", Val.int 2)])
      (Val.dict [("x", Val.int 1), ("y", Val.int 2), ("z", Val.int 3)]) "" false
      Option.none false Option.none = Except.ok false ∧
    deepCompareDicts true (Val.dict [("x", Val.int 1), ("y", Val.int 2)])
      (Val.dict [("x", Val.int 1), ("y", Val.int 2), ("z", Val.int 3)]) "" true
      Option.none false Option.none =
      Except.error (Err.assertionError
        (" :: : dict keys don\x27t match. Keys in dict1 and missing from dict2 = set(). " ++
         "Keys in dict2 and missing from dict1 = \x7b\x27z\x27\x7d")) ∧
    deepCompareDicts true (Val.dict [("x", Val.int 1), ("y", Val.int 2)])
      (Val.dict [("x", Val.int 1), ("y", Val.int 2), ("z", Val.int 3)]) "" true
      Option.none true Option.none = Except.ok true := by
  refine ⟨?_, ?_, ?_⟩ <;>
    simp [deepCompareDicts, deepCompareDictsBody, deepCompare, dictCompareKeys, dictLoop,
      pyAssert, pyEq, tryAssert, isDictVal, pySet, dedupAux, setEqB, setSubB, setDiffL,
      fieldNames, lookupField, fmtStrSet, msgOrEmpty] <;>
    decide

/-- The concrete frame (single unnamed index, one column) for the mutation
claim. -/
def dfUnnamed : DataFrame :=
  { idxNames := IndexNames.plain Option.none, cols := ["a"],
    rows := [{ idx := [Cell.int 0], cells := [Cell.int 1] }] }

/-- C6 (failing evaluation): with the default options, `compare_dataframes`
renames the caller's unnamed plain indices to `"INDEX"` in place (source
lines 122-124 assign to `df1.index.name` while the locals still alias the
caller's frames): comparing `dfUnnamed` with itself succeeds but leaves both
caller-visible operands with index name `INDEX` instead of unchanged. -/
theorem c6_compare_dataframes_mutates_callers :
    (compareDataframes true (Val.df dfUnnamed) (Val.df dfUnnamed) Option.none Option.none
      false true false true Option.none).1 = Except.ok true ∧
    (compareDataframes true (Val.df dfUnnamed) (Val.df dfUnnamed) Option.none Option.none
      false true false true Option.none).2.1 = Val.df (dfUnnamed.setIndexName "INDEX") ∧
    (compareDataframes true (Val.df dfUnnamed) (Val.df dfUnnamed) Option.none Option.none
      false true false true Option.none).2.2 = Val.df (dfUnnamed.setIndexName "INDEX") ∧
    Val.df (dfUnnamed.setIndexName "INDEX") ≠ Val.df dfUnnamed := by
  refine ⟨rfl, rfl, rfl, ?_⟩
  simp [dfUnnamed, DataFrame.setIndexName]

/-- The concrete frame (named index, one column `a`) for the column-subset
claim. -/
def dfNamed : DataFrame :=
  { idxNames := IndexNames.plain (some "i"), cols := ["a"],
    rows := [{ idx := [Cell.int 0], cells := [Cell.int 1] }] }

/-- C7 (counterexample): the claim has the option constraint reversed.
Supplying a column subset together with `ignore_col_order=True` is accepted
(the comparison runs and returns `True` here — no configuration error),
whereas the combination with `ignore_col_order=False` is the one rejected
with the `ValueError`. -/
theorem c7_cols_option_counterexample :
    (compareDataframes true (Val.df dfNamed) (Val.df dfNamed) (some ["a"]) Option.none
      true true false true Option.none).1 = Except.ok true ∧
    (compareDataframes true (Val.df dfNamed) (Val.df dfNamed) (some ["a"]) Option.none
      false true false true Option.none).1 =
      Except.error (Err.valueError "Cannot specify cols and test col order") :=
  ⟨rfl, rfl⟩

/-- C7 (amended): the columns-subset option requires `ignore_col_order=true`
(the combination with `ignore_col_order=false` is the configuration error),
and when a subset is supplied every requested column must exist in each
operand, otherwise the strict comparison fails with an error naming the
missing columns of the operand that lacks them. -/
theorem c7_cols_option_amended (d1 d2 : DataFrame) (cs : List String)
    (msgO : Option String) (iro ii t : Bool) :
    ((compareDataframes true (Val.df d1) (Val.df d2) (some cs) msgO false iro ii t
        Option.none).1 =
      Except.error (Err.valueError "Cannot specify cols and test col order")) ∧
    (setDiffL (pySet cs) d1.cols ≠ [] →
      (compareDataframes true (Val.df d1) (Val.df d2) (some cs) msgO true iro ii true
          Option.none).1 =
        Except.error (Err.assertionError
          ("Not all the requested cols are in df1. missing_cols=" ++
           fmtStrSet (setDiffL (pySet cs) d1.cols)))) ∧
    (setDiffL (pySet cs) d1.cols = [] → setDiffL (pySet cs) d2.cols ≠ [] →
      (compareDataframes true (Val.df d1) (Val.df d2) (some cs) msgO true iro ii true
          Option.none).1 =
        Except.error (Err.assertionError
          ("Not all the requested cols are in df2. missing_cols=" ++
           fmtStrSet (setDiffL (pySet cs) d2.cols)))) := by
  refine ⟨?_, ?_, ?_⟩
  · unfold compareDataframes
    simp
  · intro h1
    unfold compareDataframes
    simp [h1, dfFail]
  · intro h1 h2
    unfold compareDataframes
    simp [h1, h2, dfFail]

/-- Witness for `c7_cols_option_amended`: requesting missing column `b`. -/
theorem c7_cols_option_amended_witness :
    (setDiffL (pySet ["b"]) dfNamed.cols ≠ []) ∧
    (compareDataframes true (Val.df dfNamed) (Val.df dfNamed) (some ["b"]) Option.none
        true true false true Option.none).1 =
      Except.error (Err.assertionError
        ("Not all the requested cols are in df1. missing_cols=" ++
         fmtStrSet (setDiffL (pySet ["b"]) dfNamed.cols))) :=
  ⟨by decide,
    (c7_cols_option_amended dfNamed dfNamed ["b"] Option.none true false true).2.1 (by decide)⟩
